import Mathlib

/-!
# Zephyr push-to-talk pipeline: shallow embedding and verification

This file embeds the session-critical parts of the Zephyr voice-to-text
daemon in Lean 4 and settles the specification claims about them:

* `HotkeyListener` (src/zephyr/hotkey_listener.py): the pynput-based
  debounced hotkey state machine.
* `AudioCapture` (src/zephyr/audio_capture.py): the microphone owner with
  its bounded ring buffer and release semantics.
* `SpeechRecognizer` (src/zephyr/speech_recognition.py): transcription,
  streaming, finalization and confidence estimation.
* `ZephyrDaemon` (src/zephyr/daemon.py): the orchestrator press/release
  handlers.

Modelling conventions: CPython floats for times, durations and levels are
modelled as rationals; threads, locks and timers are not modelled (the
handlers run their bodies to completion, which matches the lock-serialised
execution in the source); side-effecting collaborator calls (PyAudio, the
Whisper model, the UI overlay, the input simulator) are parameterised by
explicit outcome values, and each handler additionally returns the list of
collaborator operations it invoked, in order, so that theorems can speak
about which calls happened.  Python exceptions are modelled with `Except`.
-/

set_option autoImplicit false

namespace Zephyr

/-- Python exception values relevant to the embedded modules.  The source
hierarchy is `ModelLoadError < TranscriptionError < Exception`; here each
raised exception is represented by the most specific class it is
constructed from, so `transcriptionError` is the generic
`TranscriptionError(...)` constructor and `modelLoadError` the
`ModelLoadError(...)` one. -/
inductive PyExc where
  | runtimeError (msg : String)
  | transcriptionError (msg : String)
  | modelLoadError (msg : String)
  | audioDeviceError (msg : String)
  | otherError (msg : String)
  deriving DecidableEq, Repr

/-- `str(e)` of a modelled exception: the message it was constructed with. -/
def PyExc.message : PyExc → String
  | .runtimeError m => m
  | .transcriptionError m => m
  | .modelLoadError m => m
  | .audioDeviceError m => m
  | .otherError m => m

/-- Whether an exception value is an instance of `ModelLoadError`. -/
def PyExc.isModelLoadError : PyExc → Bool
  | .modelLoadError _ => true
  | _ => false

/-- Whether an exception value is an instance of `TranscriptionError`
(which `ModelLoadError` subclasses). -/
def PyExc.isTranscriptionError : PyExc → Bool
  | .transcriptionError _ => true
  | .modelLoadError _ => true
  | _ => false

/-! ## Hotkey listener (src/zephyr/hotkey_listener.py)

Keys are modelled symbolically: pynput character keys become `HKey.char`
and the named special keys become dedicated constructors, so
`_is_target_key`'s char-vs-special dispatch collapses into plain equality.
-/

/-- A keyboard key as seen by the pynput listener. -/
inductive HKey where
  | char (c : Char)
  | space | tab | enter | esc
  | ctrl | ctrl_l | ctrl_r
  | alt | alt_l | alt_r
  | shift | shift_l | shift_r
  | f (n : Nat)
  deriving DecidableEq, Repr

/-- `HotkeyListener._is_modifier_key`: membership in the modifier set. -/
def HKey.isModifierKey : HKey → Bool
  | .ctrl | .ctrl_l | .ctrl_r => true
  | .alt | .alt_l | .alt_r => true
  | .shift | .shift_l | .shift_r => true
  | _ => false

/-- The `HotkeyListener` object: configuration fields together with the
mutable listener state (`_key_pressed`, `_press_start_time`,
`_pressed_modifiers`).  `min_press_duration` is stored in seconds, after
the constructor divides the millisecond argument by 1000. -/
structure HotkeyListener where
  target_key : HKey
  required_modifiers : List HKey
  min_press_duration : ℚ
  key_pressed : Bool
  press_start_time : Option ℚ
  pressed_modifiers : List HKey
  deriving DecidableEq, Repr

/-- `HotkeyListener.__init__` for an already-parsed hotkey: records the
target and modifiers and converts `min_press_duration` from milliseconds
to seconds. -/
def HotkeyListener.init (target : HKey) (mods : List HKey)
    (minPressDurationMs : ℚ) : HotkeyListener :=
  { target_key := target
    required_modifiers := mods
    min_press_duration := minPressDurationMs / 1000
    key_pressed := false
    press_start_time := none
    pressed_modifiers := [] }

/-- `HotkeyListener._are_modifiers_pressed`: every required modifier must
be held, where a required generic `ctrl`/`alt`/`shift` is also satisfied
by its left or right variant. -/
def HotkeyListener.areModifiersPressed (l : HotkeyListener) : Bool :=
  l.required_modifiers.all fun req =>
    req ∈ l.pressed_modifiers
    || (req == HKey.ctrl
        && (HKey.ctrl_l ∈ l.pressed_modifiers || HKey.ctrl_r ∈ l.pressed_modifiers))
    || (req == HKey.alt
        && (HKey.alt_l ∈ l.pressed_modifiers || HKey.alt_r ∈ l.pressed_modifiers))
    || (req == HKey.shift
        && (HKey.shift_l ∈ l.pressed_modifiers || HKey.shift_r ∈ l.pressed_modifiers))

/-- Result of delivering one raw key event to the listener: the updated
listener, whether the event was consumed (the pynput callback returned
`False`), and whether the session callback was fired.  `duration` is the
elapsed press duration computed on the release path (0 elsewhere). -/
structure KeyEventResult where
  listener : HotkeyListener
  consumed : Bool
  fired : Bool
  duration : ℚ
  deriving DecidableEq, Repr

/-- `HotkeyListener._on_key_press` at time `now`.  Modifier keys are
tracked and passed through; non-target keys are passed through; a target
key without the required modifiers is passed through; a repeat down event
for an already-latched key is consumed without firing; otherwise the key
is latched, the start time recorded, the press callback fired
synchronously, and the event consumed.  A callback exception is caught in
the source and does not alter the listener state, so firing is recorded
as a flag rather than an effect. -/
def HotkeyListener.onKeyPress (l : HotkeyListener) (key : HKey) (now : ℚ) :
    KeyEventResult :=
  if key.isModifierKey then
    { listener :=
        { l with pressed_modifiers :=
            if key ∈ l.pressed_modifiers then l.pressed_modifiers
            else key :: l.pressed_modifiers }
      consumed := false, fired := false, duration := 0 }
  else if key ≠ l.target_key then
    { listener := l, consumed := false, fired := false, duration := 0 }
  else if ¬ l.areModifiersPressed then
    { listener := l, consumed := false, fired := false, duration := 0 }
  else if l.key_pressed then
    { listener := l, consumed := true, fired := false, duration := 0 }
  else
    { listener := { l with key_pressed := true, press_start_time := some now }
      consumed := true, fired := true, duration := 0 }

/-- `HotkeyListener._on_key_release` at time `now`.  Modifier keys update
the held set and pass through; non-target keys pass through; a release
with no latched press passes through; otherwise the press duration is
computed (0 when the recorded start time is absent or falsy), the latch
is cleared, the event is consumed, and the release callback fires only
when the duration reaches `min_press_duration`. -/
def HotkeyListener.onKeyRelease (l : HotkeyListener) (key : HKey) (now : ℚ) :
    KeyEventResult :=
  if key.isModifierKey then
    { listener := { l with pressed_modifiers := l.pressed_modifiers.erase key }
      consumed := false, fired := false, duration := 0 }
  else if key ≠ l.target_key then
    { listener := l, consumed := false, fired := false, duration := 0 }
  else if ¬ l.key_pressed then
    { listener := l, consumed := false, fired := false, duration := 0 }
  else
    let pressDuration : ℚ :=
      match l.press_start_time with
      | some t => if t = 0 then 0 else now - t
      | none => 0
    let l' := { l with key_pressed := false, press_start_time := none }
    if pressDuration < l.min_press_duration then
      { listener := l', consumed := true, fired := false, duration := pressDuration }
    else
      { listener := l', consumed := true, fired := true, duration := pressDuration }

/-- Deliver a list of timestamped raw down events in order, collecting the
per-event results. -/
def HotkeyListener.runPresses (l : HotkeyListener) :
    List (HKey × ℚ) → HotkeyListener × List KeyEventResult
  | [] => (l, [])
  | (k, t) :: rest =>
    let r := l.onKeyPress k t
    let (l', rs) := r.listener.runPresses rest
    (l', r :: rs)

example :
    let l := HotkeyListener.init (.char '\\') [] 100
    let l1 := { l with key_pressed := true, press_start_time := some 1 }
    (l1.onKeyRelease (.char '\\') (21/20)).fired = false := by
  norm_num [HotkeyListener.onKeyRelease, HotkeyListener.init, HKey.isModifierKey]

example :
    let l := HotkeyListener.init (.char '\\') [] 100
    let l1 := { l with key_pressed := true, press_start_time := some 1 }
    (l1.onKeyRelease (.char '\\') (6/5)).fired = true := by
  norm_num [HotkeyListener.onKeyRelease, HotkeyListener.init, HKey.isModifierKey]

/-- Helper: a repeated down event for an already-latched target key is
consumed with no state change and no callback. -/
theorem onKeyPress_latched (l : HotkeyListener) (key : HKey) (now : ℚ)
    (hmod : key.isModifierKey = false) (htgt : key = l.target_key)
    (hmods : l.areModifiersPressed = true) (hlatch : l.key_pressed = true) :
    l.onKeyPress key now
      = { listener := l, consumed := true, fired := false, duration := 0 } := by
  subst htgt
  simp [HotkeyListener.onKeyPress, hmod, hmods, hlatch]

/-- Helper: delivering a sequence of target-key down events to a listener
that is already latched leaves it unchanged and consumes every event
without firing. -/
theorem runPresses_latched (l : HotkeyListener) (evs : List (HKey × ℚ))
    (hkeys : ∀ e ∈ evs, e.1 = l.target_key)
    (hmod : l.target_key.isModifierKey = false)
    (hmods : l.areModifiersPressed = true)
    (hlatch : l.key_pressed = true) :
    l.runPresses evs
      = (l, evs.map fun _ =>
          { listener := l, consumed := true, fired := false, duration := 0 }) := by
  induction evs with
  | nil => simp [HotkeyListener.runPresses]
  | cons e rest ih =>
    obtain ⟨k, t⟩ := e
    have hk : k = l.target_key := hkeys (k, t) (List.mem_cons_self _ _)
    have h1 := onKeyPress_latched l k t (hk ▸ hmod) hk hmods hlatch
    have h2 := ih fun e he => hkeys e (List.mem_cons_of_mem _ he)
    simp [HotkeyListener.runPresses, h1, h2]

/-- Claim C8: for any nonempty sequence of consecutive raw down events of
the (non-modifier) target key delivered while the required modifiers are
held and the key is not yet latched, the press callback fires exactly
once, on the first event, and every event in the sequence is consumed. -/
theorem hotkey_repeat_down_fires_once (l : HotkeyListener) (evs : List (HKey × ℚ))
    (hne : evs ≠ [])
    (hkeys : ∀ e ∈ evs, e.1 = l.target_key)
    (hmod : l.target_key.isModifierKey = false)
    (hmods : l.areModifiersPressed = true)
    (hlatch : l.key_pressed = false) :
    ((l.runPresses evs).2.map KeyEventResult.fired)
        = true :: List.replicate (evs.length - 1) false
      ∧ ∀ r ∈ (l.runPresses evs).2, r.consumed = true := by
  match evs with
  | [] => exact absurd rfl hne
  | (k, t) :: rest =>
    have hk : k = l.target_key := hkeys (k, t) (List.mem_cons_self _ _)
    have h1 : l.onKeyPress k t
        = { listener := { l with key_pressed := true, press_start_time := some t }
            consumed := true, fired := true, duration := 0 } := by
      subst hk
      simp [HotkeyListener.onKeyPress, hmod, hmods, hlatch]
    have hmods2 : HotkeyListener.areModifiersPressed
        { l with key_pressed := true, press_start_time := some t } = true := hmods
    have h2 := runPresses_latched
      { l with key_pressed := true, press_start_time := some t } rest
      (fun e he => hkeys e (List.mem_cons_of_mem _ he)) hmod hmods2 rfl
    refine ⟨?_, ?_⟩
    · simp [HotkeyListener.runPresses, h1, h2, List.map_map, Function.comp_def,
        List.map_const']
    · intro r hr
      simp only [HotkeyListener.runPresses, h1, h2, List.mem_cons,
        List.mem_map] at hr
      rcases hr with h | ⟨a, _, h⟩
      · subst h; rfl
      · rw [← h]

/-- Concrete witness for the C8 theorem: three autorepeat down events of
a plain character hotkey fire the press callback exactly once. -/
theorem hotkey_repeat_down_fires_once_witness :
    (((HotkeyListener.init (.char 'z') [] 100).runPresses
        [(.char 'z', 1), (.char 'z', 2), (.char 'z', 3)]).2.map KeyEventResult.fired)
        = true :: List.replicate 2 false
      ∧ ∀ r ∈ ((HotkeyListener.init (.char 'z') [] 100).runPresses
          [(.char 'z', 1), (.char 'z', 2), (.char 'z', 3)]).2, r.consumed = true :=
  hotkey_repeat_down_fires_once (HotkeyListener.init (.char 'z') [] 100)
    [(.char 'z', 1), (.char 'z', 2), (.char 'z', 3)]
    (by simp) (by simp [HotkeyListener.init]) rfl rfl rfl

/-- A latched listener for the default backslash hotkey with the default
100 ms minimum press duration, with the press recorded at time 1 s. -/
def latchedBackslash : HotkeyListener :=
  { HotkeyListener.init (.char '\\') [] 100 with
      key_pressed := true, press_start_time := some 1 }

/-- Claim C1, counterexample: a raw up event of the target key while
latched after a 50 ms press (below the 100 ms minimum) is consumed but
does NOT fire the release callback, so the minimum press duration is a
real filter, not informational only. -/
theorem hotkey_short_press_release_not_fired :
    latchedBackslash.key_pressed = true
      ∧ (latchedBackslash.onKeyRelease (.char '\\') (21/20)).consumed = true
      ∧ (latchedBackslash.onKeyRelease (.char '\\') (21/20)).fired = false
      ∧ (latchedBackslash.onKeyRelease (.char '\\') (21/20)).duration = 1/20 := by
  refine ⟨rfl, ?_⟩
  norm_num [latchedBackslash, HotkeyListener.onKeyRelease, HotkeyListener.init,
    HKey.isModifierKey]

/-- Claim C1 (amended): on a raw up event of the (non-modifier) target
key while latched, the listener unlatches, computes the elapsed duration,
and consumes the event, but fires the release callback if and only if the
duration reaches `min_press_duration`; shorter presses are consumed
silently. -/
theorem hotkey_release_fires_iff_min_duration (l : HotkeyListener) (key : HKey)
    (now : ℚ) (hmod : key.isModifierKey = false) (htgt : key = l.target_key)
    (hlatch : l.key_pressed = true) :
    (l.onKeyRelease key now).listener.key_pressed = false
      ∧ (l.onKeyRelease key now).listener.press_start_time = none
      ∧ (l.onKeyRelease key now).consumed = true
      ∧ ((l.onKeyRelease key now).fired = true
          ↔ l.min_press_duration ≤ (l.onKeyRelease key now).duration) := by
  subst htgt
  simp only [HotkeyListener.onKeyRelease, hmod, hlatch]
  simp only [Bool.false_eq_true, if_false, ne_eq, not_true_eq_false, if_true,
    Bool.true_eq_false, not_false_eq_true]
  split <;> simp_all [not_le, le_of_not_lt]

/-- Concrete witness for the amended C1 theorem: a 200 ms press of the
latched backslash hotkey unlatches, is consumed, and fires. -/
theorem hotkey_release_fires_iff_min_duration_witness :
    (latchedBackslash.onKeyRelease (.char '\\') (6/5)).listener.key_pressed = false
      ∧ (latchedBackslash.onKeyRelease (.char '\\') (6/5)).listener.press_start_time = none
      ∧ (latchedBackslash.onKeyRelease (.char '\\') (6/5)).consumed = true
      ∧ ((latchedBackslash.onKeyRelease (.char '\\') (6/5)).fired = true
          ↔ latchedBackslash.min_press_duration
              ≤ (latchedBackslash.onKeyRelease (.char '\\') (6/5)).duration) :=
  hotkey_release_fires_iff_min_duration latchedBackslash (.char '\\') (6/5)
    rfl rfl rfl

/-! ## Audio capture (src/zephyr/audio_capture.py)

A PCM16 byte string is modelled as its list of 16-bit samples.  The RMS
level computation involves a square root, so recorded levels enter the
model as explicit inputs to the capture-loop step; the noise-reduction
pass is an abstract total function (its internal failure fallback returns
the untreated audio, which a total function already captures).
-/

/-- One audio chunk: the samples of one `stream.read` result. -/
abbrev AudioChunk := List ℤ

/-- Python `int(x)` on a float value: truncation toward zero. -/
def pyInt (x : ℚ) : ℤ :=
  if 0 ≤ x then ⌊x⌋ else ⌈x⌉

/-- `collections.deque(maxlen := maxlen).append`: when the deque is full,
items are discarded from the opposite end so the length never exceeds
`maxlen`. -/
def dequeAppend {α : Type} (maxlen : ℕ) (buf : List α) (x : α) : List α :=
  if maxlen = 0 then []
  else if buf.length < maxlen then buf ++ [x]
  else (buf ++ [x]).drop (buf.length + 1 - maxlen)

/-- The ring-buffer capacity computed in `AudioCapture.__init__`:
`int(max_recording_duration / chunk_duration) + 1`. -/
def maxBufferSize (max_recording_duration : ℕ) (chunk_duration : ℚ) : ℕ :=
  (pyInt ((max_recording_duration : ℚ) / chunk_duration)).toNat + 1

/-- The `AudioCapture` object: construction parameters plus the mutable
device/recording state.  `pyaudio` and `stream` record whether the
PyAudio handle and the input stream are currently open; `chunk_callback`
whether a streaming callback is registered. -/
structure AudioCapture where
  sample_rate : ℕ
  channels : ℕ
  chunk_duration : ℚ
  max_recording_duration : ℕ
  pyaudio : Bool
  stream : Bool
  is_recording : Bool
  stop_event : Bool
  audio_buffer : List AudioChunk
  current_audio_level : ℚ
  chunk_callback : Bool
  apply_noise_reduction : Bool
  deriving DecidableEq, Repr

/-- `AudioCapture.__init__`. -/
def AudioCapture.init (sample_rate channels : ℕ) (chunk_duration : ℚ)
    (max_recording_duration : ℕ) : AudioCapture :=
  { sample_rate := sample_rate
    channels := channels
    chunk_duration := chunk_duration
    max_recording_duration := max_recording_duration
    pyaudio := false
    stream := false
    is_recording := false
    stop_event := false
    audio_buffer := []
    current_audio_level := 0
    chunk_callback := false
    apply_noise_reduction := true }

/-- The capacity of this capture object, as baked into its deque. -/
def AudioCapture.bufferCapacity (c : AudioCapture) : ℕ :=
  maxBufferSize c.max_recording_duration c.chunk_duration

/-- One iteration of `AudioCapture._recording_loop` after a successful
`stream.read`: store the computed level and append the chunk to the ring
buffer (the chunk callback, whose exceptions are swallowed, does not
change capture state). -/
def AudioCapture.recordChunk (c : AudioCapture) (chunk : AudioChunk)
    (level : ℚ) : AudioCapture :=
  { c with
      current_audio_level := level
      audio_buffer := dequeAppend c.bufferCapacity c.audio_buffer chunk }

/-- `AudioCapture._close_stream`: closes the stream; any close error is
caught and logged, so the handle always ends cleared. -/
def AudioCapture.close_stream (c : AudioCapture) : AudioCapture :=
  { c with stream := false }

/-- `AudioCapture.stop_recording`, with the noise-reduction pass `nr`
supplied as an abstract function: fails when no recording is in progress;
otherwise signals the loop to stop, clears the recording flag and the
callback, concatenates and clears the buffered chunks, applies noise
reduction when enabled and the data is nonempty, closes the stream, and
returns the bytes. -/
def AudioCapture.stop_recording (nr : List ℤ → List ℤ) (c : AudioCapture) :
    Except PyExc (List ℤ × AudioCapture) :=
  if ¬ c.is_recording then .error (.runtimeError "Recording is not in progress")
  else
    let c1 := { c with stop_event := true, is_recording := false,
                       chunk_callback := false }
    let audioData := c1.audio_buffer.flatten
    let c2 := { c1 with audio_buffer := [] }
    let audioData := if c2.apply_noise_reduction ∧ audioData ≠ [] then nr audioData
                     else audioData
    .ok (audioData, c2.close_stream)

/-- `AudioCapture.release_device`: stops an in-progress recording (errors
caught), closes the stream, terminates and clears the PyAudio handle,
clears the buffer, and resets the level to 0. -/
def AudioCapture.release_device (nr : List ℤ → List ℤ) (c : AudioCapture) :
    AudioCapture :=
  let c1 :=
    if c.is_recording then
      match c.stop_recording nr with
      | .ok (_, cs) => cs
      | .error _ => c
    else c
  let c2 := c1.close_stream
  { c2 with pyaudio := false, audio_buffer := [], current_audio_level := 0 }

/-- `AudioCapture._initialize_pyaudio` with its outcome supplied: a no-op
when the handle exists; on failure the error value also records whether
the handle had already been assigned before the raise (scanning devices
can fail after `pyaudio.PyAudio()` succeeded). -/
def AudioCapture.initialize_pyaudio (c : AudioCapture)
    (outcome : Except (PyExc × Bool) Unit) :
    Except (PyExc × AudioCapture) AudioCapture :=
  if c.pyaudio then .ok c
  else
    match outcome with
    | .ok _ => .ok { c with pyaudio := true }
    | .error (e, handleSet) => .error (e, { c with pyaudio := handleSet })

/-- `AudioCapture._open_stream` with its outcome supplied: a no-op when
an active stream exists; on failure the stream field is unchanged (the
assignment never completed). -/
def AudioCapture.open_stream (c : AudioCapture) (outcome : Except PyExc Unit) :
    Except (PyExc × AudioCapture) AudioCapture :=
  if c.stream then .ok c
  else
    match outcome with
    | .ok _ => .ok { c with stream := true }
    | .error e => .error (e, c)

/-- `AudioCapture.start_recording`: fails when already recording;
initializes PyAudio, opens the stream, clears the buffer, resets the stop
event, sets the recording flag and the callback, and starts the capture
thread (thread creation is modelled as non-failing). -/
def AudioCapture.start_recording (c : AudioCapture)
    (initOutcome : Except (PyExc × Bool) Unit)
    (openOutcome : Except PyExc Unit) :
    Except (PyExc × AudioCapture) AudioCapture :=
  if c.is_recording then .error (.runtimeError "Recording already in progress", c)
  else
    match c.initialize_pyaudio initOutcome with
    | .error ec => .error ec
    | .ok c1 =>
      match c1.open_stream openOutcome with
      | .error ec => .error ec
      | .ok c2 =>
        .ok { c2 with audio_buffer := [], stop_event := false,
                      is_recording := true, chunk_callback := true }

/-- Helper: one deque append never pushes the length above a positive
`maxlen`. -/
theorem dequeAppend_length_le {α : Type} (maxlen : ℕ) (buf : List α) (x : α)
    (hcap : 1 ≤ maxlen) (hlen : buf.length ≤ maxlen) :
    (dequeAppend maxlen buf x).length ≤ maxlen := by
  unfold dequeAppend
  split
  · omega
  · split <;> simp <;> omega

/-- Helper: folding deque appends from any in-capacity buffer stays in
capacity. -/
theorem foldl_dequeAppend_length_le {α : Type} (maxlen : ℕ) (hcap : 1 ≤ maxlen)
    (chunks : List α) (init : List α) (hinit : init.length ≤ maxlen) :
    (chunks.foldl (dequeAppend maxlen) init).length ≤ maxlen := by
  induction chunks generalizing init with
  | nil => simpa using hinit
  | cons y ys ih =>
    simpa using ih (dequeAppend maxlen init y)
      (dequeAppend_length_le maxlen init y hcap hinit)

/-- Claim C4, counterexample: with `max_recording_duration = 60` and
`chunk_duration = 7/10`, the constructor computes capacity
`int(60 / 0.7) + 1 = 86`, while the claimed formula
`ceil(60 / 0.7) + 1 = 87`. -/
theorem ring_buffer_capacity_not_ceiling :
    maxBufferSize 60 (7/10) ≠ (⌈(60 : ℚ) / (7/10)⌉).toNat + 1 := by
  have hf : ⌊(60 : ℚ) / (7/10)⌋ = 85 := by
    rw [Int.floor_eq_iff]
    norm_num
  have hc : ⌈(60 : ℚ) / (7/10)⌉ = 86 := by
    rw [Int.ceil_eq_iff]
    norm_num
  unfold maxBufferSize pyInt
  push_cast
  rw [if_pos (by norm_num : (0:ℚ) ≤ 60 / (7/10)), hf, hc]
  decide

/-- Claim C4 (amended): the ring-buffer capacity is
`int(maxRecordingDuration / chunkDuration) + 1` with truncating (floor)
integer conversion, not a ceiling; with that capacity, any sequence of
appended chunks keeps the buffer length at most the capacity, and an
append to a full buffer evicts exactly the oldest chunk. -/
theorem ring_buffer_floor_capacity_drop_oldest (m : ℕ) (cd : ℚ) (hcd : 0 < cd)
    (chunks : List AudioChunk) (buf : List AudioChunk) (x : AudioChunk)
    (hbuf : buf.length = maxBufferSize m cd) :
    maxBufferSize m cd = (⌊(m : ℚ) / cd⌋).toNat + 1
      ∧ (chunks.foldl (dequeAppend (maxBufferSize m cd)) []).length
          ≤ maxBufferSize m cd
      ∧ dequeAppend (maxBufferSize m cd) buf x = buf.tail ++ [x] := by
  have hpos : 1 ≤ maxBufferSize m cd := Nat.succ_le_succ (Nat.zero_le _)
  refine ⟨?_, ?_, ?_⟩
  · unfold maxBufferSize pyInt
    rw [if_pos (div_nonneg (Nat.cast_nonneg m) hcd.le)]
  · exact foldl_dequeAppend_length_le _ hpos chunks [] (by simp)
  · unfold dequeAppend
    rw [if_neg (by omega), if_neg (by omega), hbuf]
    have : maxBufferSize m cd + 1 - maxBufferSize m cd = 1 := by omega
    rw [this, List.drop_append_of_le_length (by omega), List.drop_one]

/-- Concrete witness for the amended C4 theorem: capacity 61 at the
default 60 s / 1 s configuration, with 62 appended chunks and a full
61-chunk buffer. -/
theorem ring_buffer_floor_capacity_drop_oldest_witness :
    maxBufferSize 60 1 = (⌊((60 : ℕ) : ℚ) / 1⌋).toNat + 1
      ∧ ((List.replicate 62 ([] : AudioChunk)).foldl
          (dequeAppend (maxBufferSize 60 1)) []).length ≤ maxBufferSize 60 1
      ∧ dequeAppend (maxBufferSize 60 1) (List.replicate 61 ([] : AudioChunk)) [7]
          = (List.replicate 61 ([] : AudioChunk)).tail ++ [[7]] :=
  ring_buffer_floor_capacity_drop_oldest 60 1 (by norm_num)
    (List.replicate 62 []) (List.replicate 61 []) [7]
    (by norm_num [maxBufferSize, pyInt, Int.floor_natCast]; rfl)

/-- Claim C9: `release_device` is idempotent: a second call produces the
same end state as the first, and after any call the stream and the
PyAudio handle are closed, the buffer is empty, and the level is 0; the
second call is safe (total) on an already-released object. -/
theorem release_device_idempotent (nr : List ℤ → List ℤ) (c : AudioCapture) :
    (c.release_device nr).release_device nr = c.release_device nr
      ∧ (c.release_device nr).stream = false
      ∧ (c.release_device nr).pyaudio = false
      ∧ (c.release_device nr).audio_buffer = []
      ∧ (c.release_device nr).current_audio_level = 0 := by
  unfold AudioCapture.release_device AudioCapture.stop_recording
    AudioCapture.close_stream
  cases hc : c.is_recording <;> simp [hc]

/-! ## Speech recognition (src/zephyr/speech_recognition.py)

The Whisper inference engine is external: each call that would invoke it
takes the outcome of that call as a parameter (`Except` of the raised
exception or the returned segments).  The source field name `end` of a
segment is a reserved word in Lean and is rendered `endOff`.  Streaming
callback invocations are returned as an explicit list of
`(text, is_final)` emissions.  Timers (idle model unload) and wall-clock
durations are not modelled; a result duration is rendered 0.
-/

/-- A segment as returned by the inference engine. -/
structure WhisperSegment where
  text : String
  start : ℚ
  endOff : ℚ
  avg_logprob : ℚ
  deriving DecidableEq, Repr

/-- `TranscriptionSegment` dataclass. -/
structure TranscriptionSegment where
  text : String
  start : ℚ
  endOff : ℚ
  confidence : ℚ
  deriving DecidableEq, Repr

/-- `TranscriptionResult` dataclass. -/
structure TranscriptionResult where
  text : String
  confidence : ℚ
  language : String
  duration : ℚ
  segments : List TranscriptionSegment
  is_final : Bool := true
  deriving DecidableEq, Repr

/-- Python `s or "dflt"` on an optional string: `None` and the empty
string are falsy. -/
def pyOrString (o : Option String) (dflt : String) : String :=
  match o with
  | some l => if l = "" then dflt else l
  | none => dflt

/-- The `SpeechRecognizer` object: configuration plus model/streaming
state.  `streaming_callback` records whether a callback is registered
(`_streaming_callback is not None`). -/
structure SpeechRecognizer where
  model_name : String
  language : Option String
  beam_size : ℕ
  best_of : ℕ
  temperature : ℚ
  vad_enabled : Bool
  vad_threshold : ℚ
  model_loaded : Bool
  is_streaming : Bool
  streaming_callback : Bool
  audio_chunks : List AudioChunk
  context_window : List (List ℚ)
  current_transcription : String
  sample_rate : ℕ
  deriving DecidableEq, Repr

/-- `SpeechRecognizer.__init__`: an `"auto"` language is stored as
`None`; the model is lazily loaded. -/
def SpeechRecognizer.init (model_name language : String) (vad_enabled : Bool)
    (vad_threshold : ℚ) : SpeechRecognizer :=
  { model_name := model_name
    language := if language = "auto" then none else some language
    beam_size := 5
    best_of := 5
    temperature := 0
    vad_enabled := vad_enabled
    vad_threshold := vad_threshold
    model_loaded := false
    is_streaming := false
    streaming_callback := false
    audio_chunks := []
    context_window := []
    current_transcription := ""
    sample_rate := 16000 }

/-- `SpeechRecognizer._load_model` with the outcome of the underlying
`WhisperModel(...)` call supplied: a no-op when loaded; a constructor
failure is re-raised as `ModelLoadError` (the source message wraps the
model name in single-quote characters, omitted here). -/
def SpeechRecognizer.load_model (s : SpeechRecognizer)
    (loadOutcome : Except PyExc Unit) : Except PyExc SpeechRecognizer :=
  if s.model_loaded then .ok s
  else
    match loadOutcome with
    | .ok _ => .ok { s with model_loaded := true }
    | .error e =>
      .error (.modelLoadError
        ("Failed to load model " ++ s.model_name ++ ": " ++ e.message))

/-- `SpeechRecognizer._ensure_model_loaded`. -/
def SpeechRecognizer.ensure_model_loaded (s : SpeechRecognizer)
    (loadOutcome : Except PyExc Unit) : Except PyExc SpeechRecognizer :=
  if ¬ s.model_loaded then s.load_model loadOutcome else .ok s

/-- `SpeechRecognizer._convert_audio_to_array`: PCM16 normalized to
rationals in [-1, 1]. -/
def SpeechRecognizer.convert_audio_to_array (audio : List ℤ) : List ℚ :=
  audio.map fun v => (v : ℚ) / 32768

/-- `SpeechRecognizer.transcribe` with the model-load and inference
outcomes supplied.  The whole body is wrapped: any raised exception is
re-raised as a generic `TranscriptionError` whose message prefixes
`Transcription failed: `.  On success the confidence is the mean of the
segment `avg_logprob` values (0 with no segments) and `is_final` is
true.  The returned recognizer reflects a completed lazy load; errors
carry the recognizer state as mutated so far. -/
def SpeechRecognizer.transcribe (s : SpeechRecognizer) (audio_data : List ℤ)
    (loadOutcome : Except PyExc Unit) (detected_language : String)
    (inference : Except PyExc (List WhisperSegment)) :
    Except (PyExc × SpeechRecognizer) (TranscriptionResult × SpeechRecognizer) :=
  let body : Except (PyExc × SpeechRecognizer)
      (TranscriptionResult × SpeechRecognizer) :=
    match s.ensure_model_loaded loadOutcome with
    | .error e => .error (e, s)
    | .ok s1 =>
      let _audio_array := convert_audio_to_array audio_data
      let lang :=
        match s1.language with
        | some l => l
        | none => detected_language
      match inference with
      | .error e => .error (e, s1)
      | .ok segments =>
        let transcription_segments := segments.map fun seg =>
          ({ text := seg.text, start := seg.start, endOff := seg.endOff,
             confidence := seg.avg_logprob } : TranscriptionSegment)
        let total_confidence := (segments.map WhisperSegment.avg_logprob).sum
        let segment_count := segments.length
        let avg_confidence : ℚ :=
          if 0 < segment_count then total_confidence / (segment_count : ℚ) else 0
        let final_text := (String.join (segments.map WhisperSegment.text)).trim
        .ok ({ text := final_text
               confidence := avg_confidence
               language := pyOrString (some lang) "unknown"
               duration := 0
               segments := transcription_segments
               is_final := true }, s1)
  match body with
  | .ok r => .ok r
  | .error (e, s1) =>
    .error (.transcriptionError ("Transcription failed: " ++ e.message), s1)

/-- `SpeechRecognizer.start_streaming_transcription`: fails when already
streaming; ensures the model is loaded, resets the chunk queue, the
running transcription and the context window, and registers the
callback. -/
def SpeechRecognizer.start_streaming_transcription (s : SpeechRecognizer)
    (loadOutcome : Except PyExc Unit) (sample_rate : ℕ) :
    Except PyExc SpeechRecognizer :=
  if s.is_streaming then
    .error (.runtimeError "Streaming transcription already in progress")
  else
    match s.ensure_model_loaded loadOutcome with
    | .error e => .error e
    | .ok s1 =>
      .ok { s1 with
              audio_chunks := []
              current_transcription := ""
              context_window := []
              is_streaming := true
              streaming_callback := true
              sample_rate := sample_rate }

/-- `SpeechRecognizer.stop_streaming_transcription`: a no-op when not
streaming; otherwise clears the streaming flag, the callback, and the
buffers. -/
def SpeechRecognizer.stop_streaming_transcription (s : SpeechRecognizer) :
    SpeechRecognizer :=
  if ¬ s.is_streaming then s
  else
    { s with
        is_streaming := false
        streaming_callback := false
        audio_chunks := []
        context_window := [] }

/-- `SpeechRecognizer._estimate_confidence`: heuristic confidence for a
streaming-finalized text, built from a base of 1/2 with bonuses for
length, punctuation, initial capitalization and word count, capped at 1
(whitespace other than the space character is not modelled in the word
count). -/
def SpeechRecognizer.estimate_confidence (text : String) : ℚ :=
  if text = "" then 0
  else
    let confidence : ℚ := 1/2
    let confidence := if 10 < text.length then confidence + 1/5 else confidence
    let confidence :=
      if ".,!?;:".toList.any (fun ch => ch ∈ text.toList) then confidence + 1/10
      else confidence
    let confidence :=
      if (text.toList.headD ' ').isUpper then confidence + 1/10 else confidence
    let word_count := ((text.splitOn " ").filter (fun w => w ≠ "")).length
    let confidence := if 3 < word_count then confidence + 1/10 else confidence
    min confidence 1

/-- `SpeechRecognizer.finalize_transcription` with the collaborator
outcomes supplied.  Returns the result, the updated recognizer, and the
list of `(text, is_final)` callback emissions performed.  The whole body
is wrapped: any raised exception is re-raised as a `TranscriptionError`
whose message prefixes `Finalization failed: `. -/
def SpeechRecognizer.finalize_transcription (s : SpeechRecognizer)
    (audio_data : Option (List ℤ)) (loadOutcome : Except PyExc Unit)
    (detected_language : String) (inference : Except PyExc (List WhisperSegment)) :
    Except (PyExc × SpeechRecognizer)
      (TranscriptionResult × SpeechRecognizer × List (String × Bool)) :=
  let noAudioPath : Except (PyExc × SpeechRecognizer)
      (TranscriptionResult × SpeechRecognizer × List (String × Bool)) :=
    let final_text := s.current_transcription
    let confidence := estimate_confidence final_text
    let s1 := if s.is_streaming then s.stop_streaming_transcription else s
    let result : TranscriptionResult :=
      { text := final_text
        confidence := confidence
        language := pyOrString s.language "unknown"
        duration := 0
        segments := []
        is_final := true }
    let emits := if s1.streaming_callback then [(final_text, true)] else []
    .ok (result, s1, emits)
  let body : Except (PyExc × SpeechRecognizer)
      (TranscriptionResult × SpeechRecognizer × List (String × Bool)) :=
    match audio_data with
    | some a =>
      if 0 < a.length then
        match s.transcribe a loadOutcome detected_language inference with
        | .error es => .error es
        | .ok (result, s1) =>
          let s2 := if s1.is_streaming then s1.stop_streaming_transcription else s1
          .ok (result, s2, [])
      else noAudioPath
    | none => noAudioPath
  match body with
  | .ok r => .ok r
  | .error (e, s1) =>
    .error (.transcriptionError ("Finalization failed: " ++ e.message), s1)

/-- A recognizer mid-streaming with a registered callback and some
partial text, as left by `start_streaming_transcription` followed by
chunk processing. -/
def streamingRecognizer : SpeechRecognizer :=
  { SpeechRecognizer.init "base" "auto" true (1/2) with
      model_loaded := true
      is_streaming := true
      streaming_callback := true
      current_transcription := "hello world" }

/-- A recognizer with the model loaded and a fixed language. -/
def loadedRecognizer : SpeechRecognizer :=
  { SpeechRecognizer.init "base" "en" true (1/2) with model_loaded := true }

/-- A freshly constructed recognizer whose model is not loaded. -/
def unloadedRecognizer : SpeechRecognizer :=
  SpeechRecognizer.init "base" "en" true (1/2)

/-- Claim C2, evaluated at the failing input: finalizing while streaming
with a registered callback emits NO `is_final = true` callback on either
path — on the no-audio path `stop_streaming_transcription` clears the
callback before the emission check, and the with-audio path never
attempts an emission — although the source comment `Emit final result
via callback` and the spec both promise one emission. -/
theorem finalize_streaming_emits_no_final_callback :
    streamingRecognizer.is_streaming = true
      ∧ streamingRecognizer.streaming_callback = true
      ∧ (streamingRecognizer.finalize_transcription none (.ok ()) "en"
          (.ok [])).map (fun r => r.2.2) = .ok []
      ∧ (streamingRecognizer.finalize_transcription (some [1, 2, 3]) (.ok ()) "en"
          (.ok [])).map (fun r => r.2.2) = .ok [] := by
  refine ⟨rfl, rfl, ?_, ?_⟩ <;>
    simp [streamingRecognizer, SpeechRecognizer.init,
      SpeechRecognizer.finalize_transcription, SpeechRecognizer.transcribe,
      SpeechRecognizer.ensure_model_loaded, SpeechRecognizer.load_model,
      SpeechRecognizer.stop_streaming_transcription, Except.map]

/-- Claim C3, counterexample: a transcription pass whose single segment
has average log-probability -1/2 produces a `TranscriptionResult` with
`confidence = -1/2`, outside [0, 1]. -/
theorem transcribe_confidence_not_in_unit_interval :
    (loadedRecognizer.transcribe [0] (.ok ()) "en"
        (.ok [{ text := "hi", start := 0, endOff := 1, avg_logprob := -1/2 }])).map
      (fun r => r.1.confidence) = .ok (-1/2)
      ∧ ¬ (0 ≤ (-1/2 : ℚ) ∧ (-1/2 : ℚ) ≤ 1) := by
  constructor
  · simp [loadedRecognizer, SpeechRecognizer.init, SpeechRecognizer.transcribe,
      SpeechRecognizer.ensure_model_loaded, SpeechRecognizer.load_model, Except.map]
  · norm_num

/-- Claim C3 (amended): the heuristic confidence of the no-audio
finalize path always lies in [0, 1]; the confidence of a full
`transcribe` pass is instead the mean segment log-probability, which is
not confined to [0, 1]. -/
theorem estimate_confidence_in_unit_interval (text : String) :
    0 ≤ SpeechRecognizer.estimate_confidence text
      ∧ SpeechRecognizer.estimate_confidence text ≤ 1 := by
  simp only [SpeechRecognizer.estimate_confidence]
  split_ifs <;> norm_num [le_min_iff, min_le_right]

/-- Claim C7, counterexample: when the model load fails, `transcribe`
raises an exception that is NOT a `ModelLoadError` instance, only a
generic `TranscriptionError`, because the blanket handler re-wraps the
`ModelLoadError` raised by `_load_model`. -/
theorem transcribe_model_load_failure_raises_generic_error :
    (unloadedRecognizer.transcribe [0] (.error (.otherError "boom")) "en"
        (.ok [])).mapError
      (fun es => (es.1.isModelLoadError, es.1.isTranscriptionError))
      = .error (false, true) := by
  simp [unloadedRecognizer, SpeechRecognizer.init, SpeechRecognizer.transcribe,
    SpeechRecognizer.ensure_model_loaded, SpeechRecognizer.load_model,
    PyExc.isModelLoadError, PyExc.isTranscriptionError, Except.mapError]

/-- Claim C7 (amended): whenever the model is not loaded and loading
fails, `transcribe` fails with a generic `TranscriptionError` whose
message wraps the `ModelLoadError` message, leaving the recognizer
unchanged. -/
theorem transcribe_wraps_model_load_error (s : SpeechRecognizer)
    (audio : List ℤ) (dl : String) (inf : Except PyExc (List WhisperSegment))
    (e : PyExc) (hml : s.model_loaded = false) :
    s.transcribe audio (.error e) dl inf
      = .error (.transcriptionError ("Transcription failed: "
          ++ ("Failed to load model " ++ s.model_name ++ ": " ++ e.message)), s) := by
  simp [SpeechRecognizer.transcribe, SpeechRecognizer.ensure_model_loaded,
    SpeechRecognizer.load_model, hml, PyExc.message]

/-- Concrete witness for the amended C7 theorem. -/
theorem transcribe_wraps_model_load_error_witness :
    unloadedRecognizer.model_loaded = false
      ∧ unloadedRecognizer.transcribe [] (.error (.otherError "io fail")) "en" (.ok [])
        = .error (.transcriptionError ("Transcription failed: "
            ++ ("Failed to load model " ++ unloadedRecognizer.model_name ++ ": "
                ++ (PyExc.otherError "io fail").message)), unloadedRecognizer) :=
  ⟨rfl, transcribe_wraps_model_load_error unloadedRecognizer [] "en" (.ok [])
      (.otherError "io fail") rfl⟩

/-! ## Daemon orchestrator (src/zephyr/daemon.py)

The orchestrator owns one `AudioCapture` and one `SpeechRecognizer` (the
collaborators are always initialized before the hotkey listener can
deliver events, so they are modelled as present).  The UI overlay, the
input simulator and the error display are external; each handler records
the collaborator operations it performs, in order, in a `DOp` list, and
boolean/`Except` outcome parameters say which collaborator calls raise.
`_handle_error` never raises (its internal `show_error` call is wrapped),
and thread creation is modelled as non-failing.
-/

/-- Collaborator operations performed by the daemon handlers. -/
inductive DOp where
  | showRecording
  | startStreamingTranscription
  | startStreamingInput
  | startRecording
  | hideUI
  | stopRecording
  | finalizeTranscription
  | updateTranscriptionFinal (text : String)
  | showCompletion
  | finalizeInput
  | releaseDevice
  | showError
  | callbackEmit (text : String) (isFinal : Bool)
  deriving DecidableEq, Repr

/-- Whether an operation is a streaming-callback emission with
`is_final = true`. -/
def DOp.isFinalEmit : DOp → Bool
  | .callbackEmit _ true => true
  | _ => false

/-- The `ZephyrDaemon` orchestrator state relevant to the session
handlers. -/
structure ZephyrDaemon where
  is_recording : Bool
  ui_visible : Bool
  audio_capture : AudioCapture
  speech_recognizer : SpeechRecognizer

/-- Outcomes of the collaborator calls made by `_on_hotkey_press`. -/
structure PressOutcomes where
  showRecordingOk : Bool
  loadOutcome : Except PyExc Unit
  startStreamingInputOk : Bool
  initOutcome : Except (PyExc × Bool) Unit
  openOutcome : Except PyExc Unit

/-- `ZephyrDaemon._on_hotkey_press`: under the recording lock, ignore the
press when already recording; hide a visible overlay when not recording;
otherwise show the overlay, start streaming transcription, start
streaming input and start audio capture in that order, setting the
recording flag on success.  Any exception is caught, shown via
`_handle_error`, and clears the recording flag.  The third component of
the result records whether the handler caught an exception. -/
def ZephyrDaemon.on_hotkey_press (d : ZephyrDaemon) (o : PressOutcomes) :
    ZephyrDaemon × List DOp × Bool :=
  if d.is_recording then (d, [], false)
  else if d.ui_visible then ({ d with ui_visible := false }, [DOp.hideUI], false)
  else if ¬ o.showRecordingOk then
    ({ d with is_recording := false }, [DOp.showRecording, DOp.showError], true)
  else
    let d1 := { d with ui_visible := true }
    match d1.speech_recognizer.start_streaming_transcription o.loadOutcome
        d1.audio_capture.sample_rate with
    | .error _ =>
      ({ d1 with is_recording := false },
       [DOp.showRecording, DOp.startStreamingTranscription, DOp.showError], true)
    | .ok rec1 =>
      let d2 := { d1 with speech_recognizer := rec1 }
      if ¬ o.startStreamingInputOk then
        ({ d2 with is_recording := false },
         [DOp.showRecording, DOp.startStreamingTranscription,
          DOp.startStreamingInput, DOp.showError], true)
      else
        match d2.audio_capture.start_recording o.initOutcome o.openOutcome with
        | .error (_, cap1) =>
          ({ d2 with audio_capture := cap1, is_recording := false },
           [DOp.showRecording, DOp.startStreamingTranscription,
            DOp.startStreamingInput, DOp.startRecording, DOp.showError], true)
        | .ok cap1 =>
          ({ d2 with audio_capture := cap1, is_recording := true },
           [DOp.showRecording, DOp.startStreamingTranscription,
            DOp.startStreamingInput, DOp.startRecording], false)

/-- Outcomes of the collaborator calls made by `_on_hotkey_release`,
including the abstract noise-reduction pass used by `stop_recording`. -/
structure ReleaseOutcomes where
  nr : List ℤ → List ℤ
  loadOutcome : Except PyExc Unit
  detected_language : String
  inference : Except PyExc (List WhisperSegment)
  uiUpdateOk : Bool
  showCompletionOk : Bool
  finalizeInputOk : Bool

/-- The `except` branch of `_on_hotkey_release`: report the error, clear
the recording flag, and release the audio device (release errors are
swallowed by the inner handler). -/
def ZephyrDaemon.releaseErrorPath (d : ZephyrDaemon) (nr : List ℤ → List ℤ)
    (ops : List DOp) : ZephyrDaemon × List DOp :=
  ({ d with is_recording := false
            audio_capture := d.audio_capture.release_device nr },
   ops ++ [DOp.showError, DOp.releaseDevice])

/-- The tail of the `try` branch of `_on_hotkey_release` after the
optional finalize/UI steps: finalize the streaming input (diverting to
the except branch when it raises), clear the recording flag, and release
the audio device. -/
def ZephyrDaemon.releaseFinishPath (d : ZephyrDaemon) (nr : List ℤ → List ℤ)
    (finalizeInputOk : Bool) (ops : List DOp) : ZephyrDaemon × List DOp :=
  if ¬ finalizeInputOk then d.releaseErrorPath nr (ops ++ [DOp.finalizeInput])
  else
    ({ d with is_recording := false
              audio_capture := d.audio_capture.release_device nr },
     ops ++ [DOp.finalizeInput, DOp.releaseDevice])

/-- `ZephyrDaemon._on_hotkey_release`: under the recording lock, ignore
the release when not recording; otherwise stop audio recording, run
`finalize_transcription` with the captured bytes only when they are
nonempty (pushing the final text and the completion animation to the
overlay), finalize the input simulator, clear the recording flag, and
release the audio device; any exception diverts to the except branch. -/
def ZephyrDaemon.on_hotkey_release (d : ZephyrDaemon) (o : ReleaseOutcomes) :
    ZephyrDaemon × List DOp :=
  if ¬ d.is_recording then (d, [])
  else
    match d.audio_capture.stop_recording o.nr with
    | .error _ => d.releaseErrorPath o.nr [DOp.stopRecording]
    | .ok (audio_data, cap1) =>
      let d1 := { d with audio_capture := cap1 }
      if audio_data ≠ [] then
        match d1.speech_recognizer.finalize_transcription (some audio_data)
            o.loadOutcome o.detected_language o.inference with
        | .error (_, rec1) =>
          ZephyrDaemon.releaseErrorPath { d1 with speech_recognizer := rec1 }
            o.nr [DOp.stopRecording, DOp.finalizeTranscription]
        | .ok (result, rec1, emits) =>
          let d2 := { d1 with speech_recognizer := rec1 }
          let ops2 := [DOp.stopRecording, DOp.finalizeTranscription]
            ++ emits.map (fun p => DOp.callbackEmit p.1 p.2)
          if ¬ o.uiUpdateOk then
            d2.releaseErrorPath o.nr
              (ops2 ++ [DOp.updateTranscriptionFinal result.text])
          else if ¬ o.showCompletionOk then
            d2.releaseErrorPath o.nr
              (ops2 ++ [DOp.updateTranscriptionFinal result.text, DOp.showCompletion])
          else
            d2.releaseFinishPath o.nr o.finalizeInputOk
              (ops2 ++ [DOp.updateTranscriptionFinal result.text, DOp.showCompletion])
      else
        d1.releaseFinishPath o.nr o.finalizeInputOk [DOp.stopRecording]

/-- Helper: the except branch always ends unrecorded with the device
release invoked. -/
theorem releaseErrorPath_spec (d : ZephyrDaemon) (nr : List ℤ → List ℤ)
    (ops : List DOp) :
    (d.releaseErrorPath nr ops).1.is_recording = false
      ∧ DOp.releaseDevice ∈ (d.releaseErrorPath nr ops).2 := by
  simp [ZephyrDaemon.releaseErrorPath]

/-- Helper: the finishing tail always ends unrecorded with the device
release invoked. -/
theorem releaseFinishPath_spec (d : ZephyrDaemon) (nr : List ℤ → List ℤ)
    (b : Bool) (ops : List DOp) :
    (d.releaseFinishPath nr b ops).1.is_recording = false
      ∧ DOp.releaseDevice ∈ (d.releaseFinishPath nr b ops).2 := by
  unfold ZephyrDaemon.releaseFinishPath
  split
  · exact releaseErrorPath_spec _ _ _
  · simp

/-- Claim C5: whenever the hotkey-release handler runs while a recording
session is active, on every exit path — normal completion or an
exception in any stop/finalize/inject step — the recording flag ends
false and the audio-device release operation is invoked. -/
theorem hotkey_release_clears_flag_and_releases_device (d : ZephyrDaemon)
    (o : ReleaseOutcomes) (hrec : d.is_recording = true) :
    (d.on_hotkey_release o).1.is_recording = false
      ∧ DOp.releaseDevice ∈ (d.on_hotkey_release o).2 := by
  unfold ZephyrDaemon.on_hotkey_release
  rw [if_neg (by simp [hrec])]
  cases hstop : d.audio_capture.stop_recording o.nr with
  | error e => exact releaseErrorPath_spec _ _ _
  | ok pr =>
    obtain ⟨audio_data, cap1⟩ := pr
    simp only
    split
    · cases hfin : SpeechRecognizer.finalize_transcription
          { d with audio_capture := cap1 }.speech_recognizer (some audio_data)
          o.loadOutcome o.detected_language o.inference with
      | error es =>
        obtain ⟨e1, rec1⟩ := es
        exact releaseErrorPath_spec _ _ _
      | ok r =>
        obtain ⟨result, rec1, emits⟩ := r
        simp only
        split
        · exact releaseErrorPath_spec _ _ _
        · split
          · exact releaseErrorPath_spec _ _ _
          · exact releaseFinishPath_spec _ _ _ _
    · exact releaseFinishPath_spec _ _ _ _

/-- A daemon mid-session: recording flag set, overlay visible, device
open and recording, recognizer streaming. -/
def recordingDaemon : ZephyrDaemon :=
  { is_recording := true
    ui_visible := true
    audio_capture :=
      { AudioCapture.init 16000 1 1 60 with
          pyaudio := true, stream := true, is_recording := true,
          chunk_callback := true, audio_buffer := [[1, 2]] }
    speech_recognizer := streamingRecognizer }

/-- Release-path outcomes where every collaborator call succeeds and the
noise-reduction pass is the identity. -/
def releaseOkOutcomes : ReleaseOutcomes :=
  { nr := id
    loadOutcome := .ok ()
    detected_language := "en"
    inference := .ok []
    uiUpdateOk := true
    showCompletionOk := true
    finalizeInputOk := true }

/-- Concrete witness for the C5 theorem. -/
theorem hotkey_release_clears_flag_and_releases_device_witness :
    (recordingDaemon.on_hotkey_release releaseOkOutcomes).1.is_recording = false
      ∧ DOp.releaseDevice ∈ (recordingDaemon.on_hotkey_release releaseOkOutcomes).2 :=
  hotkey_release_clears_flag_and_releases_device recordingDaemon releaseOkOutcomes rfl

/-- Helper: when `start_recording` fails, the stream field is unchanged
(the device is only marked open after `_open_stream` succeeds, and no
step after that can raise). -/
theorem start_recording_error_stream (c : AudioCapture)
    (io : Except (PyExc × Bool) Unit) (oo : Except PyExc Unit)
    (ec : PyExc × AudioCapture) (h : c.start_recording io oo = .error ec) :
    ec.2.stream = c.stream := by
  unfold AudioCapture.start_recording AudioCapture.initialize_pyaudio
    AudioCapture.open_stream at h
  by_cases h1 : c.is_recording <;> by_cases h2 : c.pyaudio <;>
    by_cases h3 : c.stream <;> rcases io with u | eb <;> rcases oo with u2 | e2 <;>
    simp [h1, h2, h3] at h <;> (try subst h) <;> simp_all

/-- Claim C6: when the press handler starts from idle (flag clear, no
overlay, device stream closed per the idle invariant) and any start-up
step raises, the handler surfaces the error via `show_error`, ends with
the recording flag cleared, and leaves the audio-capture stream
closed. -/
theorem hotkey_press_failure_clears_flag_and_device_closed (d : ZephyrDaemon)
    (o : PressOutcomes) (hrec : d.is_recording = false)
    (hui : d.ui_visible = false) (hstream : d.audio_capture.stream = false)
    (hraised : (d.on_hotkey_press o).2.2 = true) :
    (d.on_hotkey_press o).1.is_recording = false
      ∧ (d.on_hotkey_press o).1.audio_capture.stream = false
      ∧ DOp.showError ∈ (d.on_hotkey_press o).2.1 := by
  unfold ZephyrDaemon.on_hotkey_press at hraised ⊢
  rw [if_neg (by simp [hrec]), if_neg (by simp [hui])] at hraised ⊢
  by_cases hso : o.showRecordingOk = true
  · rw [if_neg (by simp [hso])] at hraised ⊢
    simp only [] at hraised ⊢
    cases hss : d.speech_recognizer.start_streaming_transcription o.loadOutcome
        d.audio_capture.sample_rate with
    | error e => simp [hss, hstream]
    | ok rec1 =>
      rw [hss] at hraised
      simp only [] at hraised ⊢
      by_cases hsi : o.startStreamingInputOk = true
      · rw [if_neg (by simp [hsi])] at hraised ⊢
        cases hsr : d.audio_capture.start_recording o.initOutcome o.openOutcome with
        | error ec =>
          have hes := start_recording_error_stream d.audio_capture
            o.initOutcome o.openOutcome ec hsr
          rw [hstream] at hes
          simp [hsr, hes]
        | ok cap1 => rw [hsr] at hraised; simp at hraised
      · rw [if_pos (by simp [hsi])] at hraised ⊢
        simp [hstream]
  · rw [if_pos (by simp [hso])] at hraised ⊢
    simp [hstream]

/-- A fully idle daemon: nothing recording, overlay hidden, device
closed, model not loaded. -/
def idleDaemon : ZephyrDaemon :=
  { is_recording := false
    ui_visible := false
    audio_capture := AudioCapture.init 16000 1 1 60
    speech_recognizer := unloadedRecognizer }

/-- Press-path outcomes where the model load fails and every other
collaborator call would succeed. -/
def pressFailOutcomes : PressOutcomes :=
  { showRecordingOk := true
    loadOutcome := .error (.otherError "download failed")
    startStreamingInputOk := true
    initOutcome := .ok ()
    openOutcome := .ok () }

/-- Concrete witness for the C6 theorem: a failed model load during
start-up leaves the idle daemon unrecorded with the stream closed and
the error shown. -/
theorem hotkey_press_failure_clears_flag_and_device_closed_witness :
    (idleDaemon.on_hotkey_press pressFailOutcomes).1.is_recording = false
      ∧ (idleDaemon.on_hotkey_press pressFailOutcomes).1.audio_capture.stream = false
      ∧ DOp.showError ∈ (idleDaemon.on_hotkey_press pressFailOutcomes).2.1 :=
  hotkey_press_failure_clears_flag_and_device_closed idleDaemon pressFailOutcomes
    rfl rfl rfl rfl

/-- Claim C10: when the release handler runs with a recording session
whose ring buffer is empty, `stop_recording` returns an empty byte
string, the orchestrator skips `finalize_transcription` entirely — the
operation is never invoked and no `is_final = true` callback is emitted —
and the recognizer remains in streaming mode, while the recording flag is
still cleared and the audio device still released. -/
theorem empty_audio_skips_finalize (d : ZephyrDaemon) (o : ReleaseOutcomes)
    (hrec : d.is_recording = true) (hcap : d.audio_capture.is_recording = true)
    (hbuf : d.audio_capture.audio_buffer = [])
    (hstr : d.speech_recognizer.is_streaming = true) :
    DOp.finalizeTranscription ∉ (d.on_hotkey_release o).2
      ∧ (d.on_hotkey_release o).2.any DOp.isFinalEmit = false
      ∧ (d.on_hotkey_release o).1.speech_recognizer.is_streaming = true
      ∧ (d.on_hotkey_release o).1.is_recording = false
      ∧ DOp.releaseDevice ∈ (d.on_hotkey_release o).2 := by
  have hstop : d.audio_capture.stop_recording o.nr
      = .ok ([], { d.audio_capture with
          stop_event := true, is_recording := false, chunk_callback := false,
          audio_buffer := [], stream := false }) := by
    unfold AudioCapture.stop_recording AudioCapture.close_stream
    simp [hcap, hbuf]
  unfold ZephyrDaemon.on_hotkey_release
  rw [if_neg (by simp [hrec]), hstop]
  simp only []
  rw [if_neg (by simp : ¬ (([] : List ℤ) ≠ []))]
  unfold ZephyrDaemon.releaseFinishPath ZephyrDaemon.releaseErrorPath
  split <;> simp [hstr, DOp.isFinalEmit]

/-- The mid-session daemon of the C5 witness, but with an empty ring
buffer (no chunks were captured). -/
def recordingDaemonEmptyBuffer : ZephyrDaemon :=
  { recordingDaemon with
      audio_capture := { recordingDaemon.audio_capture with audio_buffer := [] } }

/-- Concrete witness for the C10 theorem. -/
theorem empty_audio_skips_finalize_witness :
    DOp.finalizeTranscription
        ∉ (recordingDaemonEmptyBuffer.on_hotkey_release releaseOkOutcomes).2
      ∧ (recordingDaemonEmptyBuffer.on_hotkey_release releaseOkOutcomes).2.any
          DOp.isFinalEmit = false
      ∧ (recordingDaemonEmptyBuffer.on_hotkey_release
          releaseOkOutcomes).1.speech_recognizer.is_streaming = true
      ∧ (recordingDaemonEmptyBuffer.on_hotkey_release
          releaseOkOutcomes).1.is_recording = false
      ∧ DOp.releaseDevice
          ∈ (recordingDaemonEmptyBuffer.on_hotkey_release releaseOkOutcomes).2 :=
  empty_audio_skips_finalize recordingDaemonEmptyBuffer releaseOkOutcomes
    rfl rfl rfl rfl

end Zephyr
